import Mathlib

/-!
Shallow embedding of the runtime geometry kernels of `safe-math-ts`
(`src/geometry3d/quaternion.ts`, `src/geometry3d/matrix4.ts`) over the real
numbers, together with theorems settling the frozen claims about them.

Modelling conventions:
* JavaScript `number` is modelled as `ℝ`; `Math.sqrt`, `Math.sin`, `Math.acos`,
  `Math.tan` become `Real.sqrt`, `Real.sin`, `Real.arccos`, `Real.tan`.
* Functions that `throw` are modelled with `Except String`.
* The compile-time-only frame and unit tags are runtime strings in the source
  (branded); they are modelled as `String` arguments and compared with `=`.
* A 4x4 matrix is a structure of 16 reals `m0 .. m15`, index `i` of the
  source's row-major array being field `m&i`.  The bounded `for` loop of
  `multiplyRaw` is unrolled to its 16 assignments.
* Object identity of matrices (observable only through the TRS cache) is
  modelled by pairing a matrix value with an allocation counter (`Mat4Inst`);
  each rebuild allocates a fresh id.
-/

set_option linter.unusedVariables false

namespace SafeMathTS

noncomputable section

/-- Threshold `NEAR_ZERO = 1e-14` shared by the degenerate-length guards. -/
def NEAR_ZERO : ℝ := 1e-14

/-- Tolerance `ROTATION_MATRIX_TOLERANCE = 1e-8` of `assertValidRotationBasis`. -/
def ROTATION_MATRIX_TOLERANCE : ℝ := 1e-8

/-- Raw 3-component vector; models the `[x, y, z]` tuples behind
`Point3` / `Delta3` / `Dir3` (the brands have no runtime content). -/
@[ext]
structure Vec3 where
  x : ℝ
  y : ℝ
  z : ℝ

/-- Quaternion `[x, y, z, w]`, as built by `asQuaternion`. -/
@[ext]
structure Quat where
  x : ℝ
  y : ℝ
  z : ℝ
  w : ℝ

/-- Affine 4x4 matrix: the 16-element row-major array behind `Mat4`,
`LinearMat4` and `ProjectionMat4` (all share this layout). Field `m&i` is
array index `i`. -/
@[ext]
structure Mat4 where
  m0 : ℝ
  m1 : ℝ
  m2 : ℝ
  m3 : ℝ
  m4 : ℝ
  m5 : ℝ
  m6 : ℝ
  m7 : ℝ
  m8 : ℝ
  m9 : ℝ
  m10 : ℝ
  m11 : ℝ
  m12 : ℝ
  m13 : ℝ
  m14 : ℝ
  m15 : ℝ

/-! ## Quaternion kernel (`quaternion.ts`) -/

/-- Guard of the two-frame `quat` constructor (`assertDistinctFrames`). -/
def assertDistinctFrames (toFrame fromFrame : String) : Except String Unit :=
  if toFrame = fromFrame then
    .error "toFrameTag and fromFrameTag must be different"
  else
    .ok ()

/-- Constructor `quat(toFrameTag, fromFrameTag, x, y, z, w)`: runs the
distinct-frames guard, then brands the four components. -/
def quat (toFrameTag fromFrameTag : String) (x y z w : ℝ) : Except String Quat :=
  match assertDistinctFrames toFrameTag fromFrameTag with
  | .error e => .error e
  | .ok _ => .ok ⟨x, y, z, w⟩

/-- Constructor `quatIdentity(frameTag)` = `(0, 0, 0, 1)`. -/
def quatIdentity (frameTag : String) : Quat :=
  ⟨0, 0, 0, 1⟩

/-- Function `quatNormSquared`. -/
def quatNormSquared (value : Quat) : ℝ :=
  value.x * value.x + value.y * value.y + value.z * value.z + value.w * value.w

/-- Function `quatNorm` = `Math.sqrt(quatNormSquared(value))`. -/
def quatNorm (value : Quat) : ℝ :=
  Real.sqrt (quatNormSquared value)

/-- Function `quatNormalizeUnsafe`: divides by the norm with no guard. -/
def quatNormalizeUnsafe (value : Quat) : Quat :=
  let norm := quatNorm value
  ⟨value.x / norm, value.y / norm, value.z / norm, value.w / norm⟩

/-- Function `quatNormalize`: throws when the norm is `<= NEAR_ZERO`. -/
def quatNormalize (value : Quat) : Except String Quat :=
  if quatNorm value ≤ NEAR_ZERO then
    .error "Cannot normalize a zero-length quaternion"
  else
    .ok (quatNormalizeUnsafe value)

/-- Function `rotateVec3ByQuatUnsafe`: normalizes the quaternion with
`quatNormalizeUnsafe` (no guard), then applies the double-cross form. -/
def rotateVec3ByQuatUnsafe (rotation : Quat) (value : Vec3) : Vec3 :=
  let q := quatNormalizeUnsafe rotation
  let tx := 2 * (q.y * value.z - q.z * value.y)
  let ty := 2 * (q.z * value.x - q.x * value.z)
  let tz := 2 * (q.x * value.y - q.y * value.x)
  ⟨value.x + q.w * tx + (q.y * tz - q.z * ty),
    value.y + q.w * ty + (q.z * tx - q.x * tz),
    value.z + q.w * tz + (q.x * ty - q.y * tx)⟩

/-- Function `rotateVec3ByQuat`: runs the `quatNormalize` guard (result
discarded), then delegates to the unsafe variant. -/
def rotateVec3ByQuat (rotation : Quat) (value : Vec3) : Except String Vec3 :=
  match quatNormalize rotation with
  | .error e => .error e
  | .ok _ => .ok (rotateVec3ByQuatUnsafe rotation value)

/-- Modelled from the spec (§4.3 `rotateVec3ByQuat`): the double-cross
formula `t = 2*cross(q.xyz, v); v' = v + q.w*t + cross(q.xyz, t)` applied to
the RAW components of `q`, with no normalization.  Used only to compare the
spec's description of the unsafe variant against the code. -/
def specDoubleCrossRotate (q : Quat) (v : Vec3) : Vec3 :=
  let tx := 2 * (q.y * v.z - q.z * v.y)
  let ty := 2 * (q.z * v.x - q.x * v.z)
  let tz := 2 * (q.x * v.y - q.y * v.x)
  ⟨v.x + q.w * tx + (q.y * tz - q.z * ty),
    v.y + q.w * ty + (q.z * tx - q.x * tz),
    v.z + q.w * tz + (q.x * ty - q.y * tx)⟩

/-- Function `quatNlerp` (safe variant): shortest-path sign flip of `end`,
linear blend, then the guarded `quatNormalize`. -/
def quatNlerp (start endQ : Quat) (t : ℝ) : Except String Quat :=
  let dot := start.x * endQ.x + start.y * endQ.y + start.z * endQ.z +
    start.w * endQ.w
  let e : Quat := if dot < 0 then ⟨-endQ.x, -endQ.y, -endQ.z, -endQ.w⟩ else endQ
  let inverseT := 1 - t
  quatNormalize ⟨start.x * inverseT + e.x * t, start.y * inverseT + e.y * t,
    start.z * inverseT + e.z * t, start.w * inverseT + e.w * t⟩

/-- Function `quatSlerp` (safe variant): shortest-path sign flip, NLERP
fallback when `cosine > 0.9995`, otherwise the `sin`-weighted blend followed
by the guarded `quatNormalize`. -/
def quatSlerp (start endQ : Quat) (t : ℝ) : Except String Quat :=
  let dot := start.x * endQ.x + start.y * endQ.y + start.z * endQ.z +
    start.w * endQ.w
  let e : Quat := if dot < 0 then ⟨-endQ.x, -endQ.y, -endQ.z, -endQ.w⟩ else endQ
  let cosine := if dot < 0 then -dot else dot
  if cosine > 0.9995 then
    quatNlerp start e t
  else
    let theta0 := Real.arccos (max (-1) (min 1 cosine))
    let sinTheta0 := Real.sin theta0
    let theta := theta0 * t
    let sinTheta := Real.sin theta
    let s0 := Real.sin (theta0 - theta) / sinTheta0
    let s1 := sinTheta / sinTheta0
    quatNormalize ⟨s0 * start.x + s1 * e.x, s0 * start.y + s1 * e.y,
      s0 * start.z + s1 * e.z, s0 * start.w + s1 * e.w⟩

/-! ## Matrix kernel (`matrix4.ts`) -/

/-- Constructor `mat4Unsafe(to, from, unit, values)`: brands the first 16
values with no length validation.  Indices absent from the list are modelled
as `0` (the claims only exercise lists of exactly 16 values). -/
def mat4Unsafe (toFrameTag fromFrameTag translationUnitTag : String)
    (values : List ℝ) : Mat4 :=
  ⟨values.getD 0 0, values.getD 1 0, values.getD 2 0, values.getD 3 0,
    values.getD 4 0, values.getD 5 0, values.getD 6 0, values.getD 7 0,
    values.getD 8 0, values.getD 9 0, values.getD 10 0, values.getD 11 0,
    values.getD 12 0, values.getD 13 0, values.getD 14 0, values.getD 15 0⟩

/-- Constructor `mat4(to, from, unit, values)`: throws unless exactly 16
values are given, then delegates to `mat4Unsafe`.  Note: unlike `quat`, the
source performs NO distinct-frames check here. -/
def mat4 (toFrameTag fromFrameTag translationUnitTag : String)
    (values : List ℝ) : Except String Mat4 :=
  if values.length ≠ 16 then
    .error ("Mat4 expects 16 values, received " ++ toString values.length)
  else
    .ok (mat4Unsafe toFrameTag fromFrameTag translationUnitTag values)

/-- Constructor `mat4FromTranslation(frame, translation)`. -/
def mat4FromTranslation (frameTag : String) (translation : Vec3) : Mat4 :=
  ⟨1, 0, 0, translation.x,
    0, 1, 0, translation.y,
    0, 0, 1, translation.z,
    0, 0, 0, 1⟩

/-- Constructor `mat4FromQuaternionUnsafe`: normalizes with
`quatNormalizeUnsafe`, then expands the standard quaternion-to-matrix form
into the row-major array. -/
def mat4FromQuaternionUnsafe (toFrameTag fromFrameTag dimensionlessUnitTag :
    String) (rotation : Quat) : Mat4 :=
  let q := quatNormalizeUnsafe rotation
  let xx := q.x * q.x
  let yy := q.y * q.y
  let zz := q.z * q.z
  let xy := q.x * q.y
  let xz := q.x * q.z
  let yz := q.y * q.z
  let wx := q.w * q.x
  let wy := q.w * q.y
  let wz := q.w * q.z
  ⟨1 - 2 * (yy + zz), 2 * (xy - wz), 2 * (xz + wy), 0,
    2 * (xy + wz), 1 - 2 * (xx + zz), 2 * (yz - wx), 0,
    2 * (xz - wy), 2 * (yz + wx), 1 - 2 * (xx + yy), 0,
    0, 0, 0, 1⟩

/-- Constructor `mat4FromQuaternion`: the `quatNormalize` guard (result
discarded) followed by the unsafe variant. -/
def mat4FromQuaternion (toFrameTag fromFrameTag dimensionlessUnitTag : String)
    (rotation : Quat) : Except String Mat4 :=
  match quatNormalize rotation with
  | .error e => .error e
  | .ok _ =>
    .ok (mat4FromQuaternionUnsafe toFrameTag fromFrameTag
      dimensionlessUnitTag rotation)

/-- Constructor `mat4FromTRSUnsafe(to, from, translation, rotation, scale)`:
scale the rotation-derived basis columns, set the translation column. -/
def mat4FromTRSUnsafe (toFrameTag fromFrameTag : String) (translation : Vec3)
    (rotation : Quat) (scale : Vec3) : Mat4 :=
  let q := quatNormalizeUnsafe rotation
  let xx := q.x * q.x
  let yy := q.y * q.y
  let zz := q.z * q.z
  let xy := q.x * q.y
  let xz := q.x * q.z
  let yz := q.y * q.z
  let wx := q.w * q.x
  let wy := q.w * q.y
  let wz := q.w * q.z
  ⟨(1 - 2 * (yy + zz)) * scale.x, (2 * (xy - wz)) * scale.y,
    (2 * (xz + wy)) * scale.z, translation.x,
    (2 * (xy + wz)) * scale.x, (1 - 2 * (xx + zz)) * scale.y,
    (2 * (yz - wx)) * scale.z, translation.y,
    (2 * (xz - wy)) * scale.x, (2 * (yz + wx)) * scale.y,
    (1 - 2 * (xx + yy)) * scale.z, translation.z,
    0, 0, 0, 1⟩

/-- Constructor `mat4FromTRS`: the `quatNormalize` guard (result discarded)
followed by the unsafe variant. -/
def mat4FromTRS (toFrameTag fromFrameTag : String) (translation : Vec3)
    (rotation : Quat) (scale : Vec3) : Except String Mat4 :=
  match quatNormalize rotation with
  | .error e => .error e
  | .ok _ =>
    .ok (mat4FromTRSUnsafe toFrameTag fromFrameTag translation rotation scale)

/-- Helper `multiplyRaw(left, right)`: the row-major 4x4 product, the
source's bounded `for` loop unrolled to its 16 assignments
`out[4r+c] = Σ_k left[4r+k] * right[4k+c]`. -/
def multiplyRaw (l r : Mat4) : Mat4 :=
  ⟨l.m0 * r.m0 + l.m1 * r.m4 + l.m2 * r.m8 + l.m3 * r.m12,
    l.m0 * r.m1 + l.m1 * r.m5 + l.m2 * r.m9 + l.m3 * r.m13,
    l.m0 * r.m2 + l.m1 * r.m6 + l.m2 * r.m10 + l.m3 * r.m14,
    l.m0 * r.m3 + l.m1 * r.m7 + l.m2 * r.m11 + l.m3 * r.m15,
    l.m4 * r.m0 + l.m5 * r.m4 + l.m6 * r.m8 + l.m7 * r.m12,
    l.m4 * r.m1 + l.m5 * r.m5 + l.m6 * r.m9 + l.m7 * r.m13,
    l.m4 * r.m2 + l.m5 * r.m6 + l.m6 * r.m10 + l.m7 * r.m14,
    l.m4 * r.m3 + l.m5 * r.m7 + l.m6 * r.m11 + l.m7 * r.m15,
    l.m8 * r.m0 + l.m9 * r.m4 + l.m10 * r.m8 + l.m11 * r.m12,
    l.m8 * r.m1 + l.m9 * r.m5 + l.m10 * r.m9 + l.m11 * r.m13,
    l.m8 * r.m2 + l.m9 * r.m6 + l.m10 * r.m10 + l.m11 * r.m14,
    l.m8 * r.m3 + l.m9 * r.m7 + l.m10 * r.m11 + l.m11 * r.m15,
    l.m12 * r.m0 + l.m13 * r.m4 + l.m14 * r.m8 + l.m15 * r.m12,
    l.m12 * r.m1 + l.m13 * r.m5 + l.m14 * r.m9 + l.m15 * r.m13,
    l.m12 * r.m2 + l.m13 * r.m6 + l.m14 * r.m10 + l.m15 * r.m14,
    l.m12 * r.m3 + l.m13 * r.m7 + l.m14 * r.m11 + l.m15 * r.m15⟩

/-- Function `composeMat4(outer, inner)` = `multiplyRaw(outer, inner)`. -/
def composeMat4 (outer inner : Mat4) : Mat4 :=
  multiplyRaw outer inner

/-- Constructor `mat4PerspectiveUnsafe(to, from, fovy, aspect, near, far)`. -/
def mat4PerspectiveUnsafe (toFrameTag fromFrameTag : String)
    (fieldOfViewYRadians aspect near far : ℝ) : Mat4 :=
  let f := 1 / Real.tan (fieldOfViewYRadians * 0.5)
  let rangeInverse := 1 / (near - far)
  ⟨f / aspect, 0, 0, 0,
    0, f, 0, 0,
    0, 0, (far + near) * rangeInverse, (2 * far * near) * rangeInverse,
    0, 0, -1, 0⟩

/-- Function `projectPoint3Unsafe(point, projection)`: full 4x4 transform and
unguarded perspective divide by the homogeneous `w`. -/
def projectPoint3Unsafe (point : Vec3) (projection : Mat4) : Vec3 :=
  let clipX := projection.m0 * point.x + projection.m1 * point.y +
    projection.m2 * point.z + projection.m3
  let clipY := projection.m4 * point.x + projection.m5 * point.y +
    projection.m6 * point.z + projection.m7
  let clipZ := projection.m8 * point.x + projection.m9 * point.y +
    projection.m10 * point.z + projection.m11
  let clipW := projection.m12 * point.x + projection.m13 * point.y +
    projection.m14 * point.z + projection.m15
  let invW := 1 / clipW
  ⟨clipX * invW, clipY * invW, clipZ * invW⟩

/-- Function `projectPoint3(point, projection)`: throws when the homogeneous
`w` is exactly `0`, otherwise delegates to the unsafe variant. -/
def projectPoint3 (point : Vec3) (projection : Mat4) : Except String Vec3 :=
  let clipW := projection.m12 * point.x + projection.m13 * point.y +
    projection.m14 * point.z + projection.m15
  if clipW = 0 then
    .error "Perspective divide is undefined for w = 0"
  else
    .ok (projectPoint3Unsafe point projection)

/-- Function `transformPoint3(point, matrix)`: affine transform reading
indices 0..11 (the translation sits at 3, 7, 11 of the row-major layout). -/
def transformPoint3 (point : Vec3) (matrix : Mat4) : Vec3 :=
  ⟨matrix.m0 * point.x + matrix.m1 * point.y + matrix.m2 * point.z + matrix.m3,
    matrix.m4 * point.x + matrix.m5 * point.y + matrix.m6 * point.z + matrix.m7,
    matrix.m8 * point.x + matrix.m9 * point.y + matrix.m10 * point.z +
      matrix.m11⟩

/-- Function `transformDirection3(direction, matrix)`: linear part only. -/
def transformDirection3 (direction : Vec3) (matrix : Mat4) : Vec3 :=
  ⟨matrix.m0 * direction.x + matrix.m1 * direction.y + matrix.m2 * direction.z,
    matrix.m4 * direction.x + matrix.m5 * direction.y + matrix.m6 * direction.z,
    matrix.m8 * direction.x + matrix.m9 * direction.y +
      matrix.m10 * direction.z⟩

/-! ## Rotation-matrix recovery (`quaternion.ts`) -/

/-- Guard `assertValidRotationBasis` of `quatFromRotationMatrix`: column
lengths, pairwise dots and determinant within `ROTATION_MATRIX_TOLERANCE`.
The source's `Number.isFinite` test is vacuous in the real-number model. -/
def assertValidRotationBasis (m00 m01 m02 m10 m11 m12 m20 m21 m22 : ℝ) :
    Except String Unit :=
  let col0LengthSquared := m00 * m00 + m10 * m10 + m20 * m20
  let col1LengthSquared := m01 * m01 + m11 * m11 + m21 * m21
  let col2LengthSquared := m02 * m02 + m12 * m12 + m22 * m22
  let col01Dot := m00 * m01 + m10 * m11 + m20 * m21
  let col02Dot := m00 * m02 + m10 * m12 + m20 * m22
  let col12Dot := m01 * m02 + m11 * m12 + m21 * m22
  let determinant := m00 * (m11 * m22 - m12 * m21) -
    m01 * (m10 * m22 - m12 * m20) + m02 * (m10 * m21 - m11 * m20)
  if ¬(|col0LengthSquared - 1| ≤ ROTATION_MATRIX_TOLERANCE) ∨
      ¬(|col1LengthSquared - 1| ≤ ROTATION_MATRIX_TOLERANCE) ∨
      ¬(|col2LengthSquared - 1| ≤ ROTATION_MATRIX_TOLERANCE) ∨
      |col01Dot| > ROTATION_MATRIX_TOLERANCE ∨
      |col02Dot| > ROTATION_MATRIX_TOLERANCE ∨
      |col12Dot| > ROTATION_MATRIX_TOLERANCE ∨
      ¬(|determinant - 1| ≤ ROTATION_MATRIX_TOLERANCE) then
    .error "Input matrix is not a valid rotation matrix"
  else
    .ok ()

/-- Function `quatFromRotationMatrixUnsafe`: reads the basis as
`m00 = matrix[0], m10 = matrix[1], m20 = matrix[2], m01 = matrix[4], ...`
exactly as the source does, runs the four-branch trace algorithm, and
normalizes the result without a guard. -/
def quatFromRotationMatrixUnsafe (toFrameTag fromFrameTag : String)
    (matrix : Mat4) : Quat :=
  let m00 := matrix.m0
  let m10 := matrix.m1
  let m20 := matrix.m2
  let m01 := matrix.m4
  let m11 := matrix.m5
  let m21 := matrix.m6
  let m02 := matrix.m8
  let m12 := matrix.m9
  let m22 := matrix.m10
  let trace := m00 + m11 + m22
  let raw : Quat :=
    if trace > 0 then
      let s := Real.sqrt (trace + 1) * 2
      ⟨(m21 - m12) / s, (m02 - m20) / s, (m10 - m01) / s, 0.25 * s⟩
    else if m00 > m11 ∧ m00 > m22 then
      let s := Real.sqrt (1 + m00 - m11 - m22) * 2
      ⟨0.25 * s, (m01 + m10) / s, (m02 + m20) / s, (m21 - m12) / s⟩
    else if m11 > m22 then
      let s := Real.sqrt (1 + m11 - m00 - m22) * 2
      ⟨(m01 + m10) / s, 0.25 * s, (m12 + m21) / s, (m02 - m20) / s⟩
    else
      let s := Real.sqrt (1 + m22 - m00 - m11) * 2
      ⟨(m02 + m20) / s, (m12 + m21) / s, 0.25 * s, (m10 - m01) / s⟩
  quatNormalizeUnsafe raw

/-- Function `quatFromRotationMatrix`: validates the basis (reading the same
indices as the unsafe variant), then delegates to it. -/
def quatFromRotationMatrix (toFrameTag fromFrameTag : String) (matrix : Mat4) :
    Except String Quat :=
  match assertValidRotationBasis matrix.m0 matrix.m4 matrix.m8 matrix.m1
      matrix.m5 matrix.m9 matrix.m2 matrix.m6 matrix.m10 with
  | .error e => .error e
  | .ok _ => .ok (quatFromRotationMatrixUnsafe toFrameTag fromFrameTag matrix)

/-! ## TRS memoization cache (`matrix4.ts` `createTrsMat4Cache`) -/

/-- Matrix instance: a matrix value paired with an allocation id, modelling
JavaScript object identity (`===` on the array object). -/
structure Mat4Inst where
  id : ℕ
  val : Mat4

/-- State captured by the closure returned by `createTrsMat4Cache`:
`hasCached`, the `cached` instance, the ten stored scalars, and the allocation
counter for fresh instances. -/
structure TrsCacheState where
  hasCached : Bool
  cached : Mat4Inst
  tx : ℝ
  ty : ℝ
  tz : ℝ
  qx : ℝ
  qy : ℝ
  qz : ℝ
  qw : ℝ
  sx : ℝ
  sy : ℝ
  sz : ℝ
  nextId : ℕ

/-- Initial closure state built by `createTrsMat4Cache`. -/
def createTrsMat4Cache (toFrameTag fromFrameTag translationUnitTag : String) :
    TrsCacheState :=
  ⟨false, ⟨0, ⟨1, 0, 0, 0, 0, 1, 0, 0, 0, 0, 1, 0, 0, 0, 0, 1⟩⟩,
    0, 0, 0, 0, 0, 0, 1, 1, 1, 1, 1⟩

/-- The closure's hit condition: `hasCached` and all ten scalars `===` the
stored ones. -/
def trsMatches (s : TrsCacheState) (translation : Vec3) (rotation : Quat)
    (scale : Vec3) : Prop :=
  s.hasCached = true ∧ translation.x = s.tx ∧ translation.y = s.ty ∧
    translation.z = s.tz ∧ rotation.x = s.qx ∧ rotation.y = s.qy ∧
    rotation.z = s.qz ∧ rotation.w = s.qw ∧ scale.x = s.sx ∧
    scale.y = s.sy ∧ scale.z = s.sz

instance (s : TrsCacheState) (translation : Vec3) (rotation : Quat)
    (scale : Vec3) : Decidable (trsMatches s translation rotation scale) := by
  unfold trsMatches
  infer_instance

/-- One invocation of the closure returned by `createTrsMat4Cache`: on a full
match return the stored instance and leave the state untouched; otherwise
rebuild via `mat4FromTRS` (whose exception propagates before any state
assignment executes) and store the freshly allocated instance. -/
def trsCacheCall (toFrameTag fromFrameTag : String) (s : TrsCacheState)
    (translation : Vec3) (rotation : Quat) (scale : Vec3) :
    Except String (Mat4Inst × TrsCacheState) :=
  if trsMatches s translation rotation scale then
    .ok (s.cached, s)
  else
    match mat4FromTRS toFrameTag fromFrameTag translation rotation scale with
    | .error e => .error e
    | .ok m =>
      let inst : Mat4Inst := ⟨s.nextId, m⟩
      .ok (inst,
        ⟨true, inst, translation.x, translation.y, translation.z,
          rotation.x, rotation.y, rotation.z, rotation.w,
          scale.x, scale.y, scale.z, s.nextId + 1⟩)

/-- Repeated invocation of the cache closure by a caller that catches each
exception: a throwing call leaves the closure's captured variables unchanged
(the state threads through), matching the source where every assignment sits
after the `mat4FromTRS` call. -/
def trsCacheRun (toFrameTag fromFrameTag : String) :
    TrsCacheState → List (Vec3 × Quat × Vec3) →
      TrsCacheState × List (Except String Mat4Inst)
  | s, [] => (s, [])
  | s, (t, q, sc) :: rest =>
    match trsCacheCall toFrameTag fromFrameTag s t q sc with
    | .error e =>
      let tail := trsCacheRun toFrameTag fromFrameTag s rest
      (tail.1, .error e :: tail.2)
    | .ok (m, s1) =>
      let tail := trsCacheRun toFrameTag fromFrameTag s1 rest
      (tail.1, .ok m :: tail.2)

/-! ## Shared evaluation lemmas -/

/-- Normalizing (unsafely) a quaternion whose norm is `1` is the identity. -/
lemma quatNormalizeUnsafe_of_norm_one (q : Quat) (h : quatNorm q = 1) :
    quatNormalizeUnsafe q = q := by
  simp [quatNormalizeUnsafe, h]

/-- A quaternion with `quatNormSquared = 1` has `quatNorm = 1`. -/
lemma quatNorm_of_normSq_one (q : Quat) (h : quatNormSquared q = 1) :
    quatNorm q = 1 := by
  rw [quatNorm, h, Real.sqrt_one]

/-- The safe `quatNormalize` accepts a quaternion of squared norm `1` and
returns it unchanged. -/
lemma quatNormalize_of_normSq_one (q : Quat) (h : quatNormSquared q = 1) :
    quatNormalize q = .ok q := by
  have hn := quatNorm_of_normSq_one q h
  rw [quatNormalize, hn, if_neg (by norm_num [NEAR_ZERO]),
    quatNormalizeUnsafe_of_norm_one q hn]

/-! ## Claim theorems -/

/-- C8: rotating by the identity quaternion is the exact identity: for every
frame `f` and every vector `v`, the safe `rotateVec3ByQuat` does not throw
(the identity quaternion has norm exactly 1) and returns `v` itself. -/
theorem rotateVec3ByQuat_quatIdentity (frameTag : String) (v : Vec3) :
    rotateVec3ByQuat (quatIdentity frameTag) v = .ok v := by
  have h1 : quatNormSquared (quatIdentity frameTag) = 1 := by
    simp [quatNormSquared, quatIdentity]
  have hu : quatNormalizeUnsafe (⟨0, 0, 0, 1⟩ : Quat) = ⟨0, 0, 0, 1⟩ :=
    quatNormalizeUnsafe_of_norm_one _
      (quatNorm_of_normSq_one _ (by norm_num [quatNormSquared]))
  have hr : rotateVec3ByQuatUnsafe (quatIdentity frameTag) v = v := by
    simp only [quatIdentity, rotateVec3ByQuatUnsafe, hu]
    ext <;> ring
  rw [rotateVec3ByQuat, quatNormalize_of_normSq_one _ h1, hr]

/-- C9: `transformPoint3` and `transformDirection3` never read entries 12–15
of the matrix: two matrices agreeing on entries 0–11 produce identical
results on every input vector. -/
theorem transform_ignores_bottom_row (m n : Mat4) (v : Vec3)
    (h0 : m.m0 = n.m0) (h1 : m.m1 = n.m1) (h2 : m.m2 = n.m2)
    (h3 : m.m3 = n.m3) (h4 : m.m4 = n.m4) (h5 : m.m5 = n.m5)
    (h6 : m.m6 = n.m6) (h7 : m.m7 = n.m7) (h8 : m.m8 = n.m8)
    (h9 : m.m9 = n.m9) (h10 : m.m10 = n.m10) (h11 : m.m11 = n.m11) :
    transformPoint3 v m = transformPoint3 v n ∧
      transformDirection3 v m = transformDirection3 v n := by
  constructor <;>
    simp [transformPoint3, transformDirection3, h0, h1, h2, h3, h4, h5, h6,
      h7, h8, h9, h10, h11]

/-- C9 witness: the identity matrix and the identity with entries 12–15
replaced by junk transform the vector `(1, 2, 3)` identically. -/
theorem transform_ignores_bottom_row_witness :
    transformPoint3 ⟨1, 2, 3⟩ ⟨1, 0, 0, 0, 0, 1, 0, 0, 0, 0, 1, 0, 0, 0, 0, 1⟩ =
        transformPoint3 ⟨1, 2, 3⟩
          ⟨1, 0, 0, 0, 0, 1, 0, 0, 0, 0, 1, 0, 7, 8, 9, 5⟩ ∧
      transformDirection3 ⟨1, 2, 3⟩
          ⟨1, 0, 0, 0, 0, 1, 0, 0, 0, 0, 1, 0, 0, 0, 0, 1⟩ =
        transformDirection3 ⟨1, 2, 3⟩
          ⟨1, 0, 0, 0, 0, 1, 0, 0, 0, 0, 1, 0, 7, 8, 9, 5⟩ :=
  transform_ignores_bottom_row _ _ _ rfl rfl rfl rfl rfl rfl rfl rfl rfl rfl
    rfl rfl

/-- C6: for the perspective matrix with `near = 1`, `far = 10` (any field of
view and aspect), a view-space point at `z = -1` projects to NDC `z = -1`, a
point at `z = -10` projects to NDC `z = 1`, and a point at `z = 0` has
homogeneous `w = 0`, so the safe `projectPoint3` throws the
undefined-perspective-divide error. -/
theorem perspective_near_far_edges (fovy aspect x y : ℝ) :
    (projectPoint3 ⟨x, y, -1⟩
        (mat4PerspectiveUnsafe "clip" "view" fovy aspect 1 10)).map Vec3.z =
      .ok (-1) ∧
    (projectPoint3 ⟨x, y, -10⟩
        (mat4PerspectiveUnsafe "clip" "view" fovy aspect 1 10)).map Vec3.z =
      .ok 1 ∧
    projectPoint3 ⟨x, y, 0⟩
        (mat4PerspectiveUnsafe "clip" "view" fovy aspect 1 10) =
      .error "Perspective divide is undefined for w = 0" := by
  refine ⟨?_, ?_, ?_⟩ <;>
    norm_num [projectPoint3, projectPoint3Unsafe, mat4PerspectiveUnsafe,
      Except.map]

/-- C1 (bug evidence): `quat` with equal frame tokens throws the
distinct-frames error, but `mat4` with equal frame tokens and a well-formed
16-value payload does NOT throw — it happily returns the branded matrix (the
source checks only the payload length; its own test suite expects a
distinct-frames throw here). -/
theorem mat4_accepts_identical_frames :
    quat "world" "world" 0 0 0 1 =
        .error "toFrameTag and fromFrameTag must be different" ∧
      mat4 "world" "world" "dimensionless"
          [1, 0, 0, 0, 0, 1, 0, 0, 0, 0, 1, 0, 0, 0, 0, 1] =
        .ok ⟨1, 0, 0, 0, 0, 1, 0, 0, 0, 0, 1, 0, 0, 0, 0, 1⟩ := by
  constructor
  · simp [quat, assertDistinctFrames]
  · simp [mat4, mat4Unsafe]

/-! ## Square-root evaluation helpers -/

lemma sqrt_two_mul_self : Real.sqrt 2 * Real.sqrt 2 = 2 :=
  Real.mul_self_sqrt (by norm_num)

lemma sqrt_four_eq_two : Real.sqrt 4 = 2 := by
  rw [show (4 : ℝ) = 2 ^ 2 by norm_num, Real.sqrt_sq (by norm_num : (0:ℝ) ≤ 2)]

lemma normSq_rotZ90 :
    quatNormSquared ⟨0, 0, Real.sqrt 2 / 2, Real.sqrt 2 / 2⟩ = 1 := by
  simp only [quatNormSquared]
  linear_combination (1/2 : ℝ) * sqrt_two_mul_self

lemma normSq_rotZ90conj :
    quatNormSquared ⟨0, 0, -(Real.sqrt 2 / 2), Real.sqrt 2 / 2⟩ = 1 := by
  simp only [quatNormSquared]
  linear_combination (1/2 : ℝ) * sqrt_two_mul_self

/-- Evaluation of `mat4FromQuaternionUnsafe` at the unit quaternion of the
90° rotation about Z: the row-major rotation matrix `[[0,-1,0],[1,0,0],[0,0,1]]`. -/
lemma mat4FromQuaternionUnsafe_rotZ90 :
    mat4FromQuaternionUnsafe "world" "body" "dimensionless"
        ⟨0, 0, Real.sqrt 2 / 2, Real.sqrt 2 / 2⟩ =
      ⟨0, -1, 0, 0, 1, 0, 0, 0, 0, 0, 1, 0, 0, 0, 0, 1⟩ := by
  have hu := quatNormalizeUnsafe_of_norm_one _
    (quatNorm_of_normSq_one _ normSq_rotZ90)
  simp only [mat4FromQuaternionUnsafe, hu]
  ext <;>
    first
      | linear_combination (1/2 : ℝ) * sqrt_two_mul_self
      | linear_combination (-1/2 : ℝ) * sqrt_two_mul_self
      | norm_num

/-! ## C3: the unsafe rotation normalizes (corrected claim) -/

/-- C3 counterexample: at the non-unit quaternion `(2,0,0,0)` and vector
`(0,1,0)`, `rotateVec3ByQuatUnsafe` returns `(0,-1,0)` (it normalizes first)
while the spec's raw-component double-cross formula returns `(0,-7,0)`. -/
theorem rotateVec3ByQuatUnsafe_not_raw :
    rotateVec3ByQuatUnsafe ⟨2, 0, 0, 0⟩ ⟨0, 1, 0⟩ = ⟨0, -1, 0⟩ ∧
      specDoubleCrossRotate ⟨2, 0, 0, 0⟩ ⟨0, 1, 0⟩ = ⟨0, -7, 0⟩ ∧
      rotateVec3ByQuatUnsafe ⟨2, 0, 0, 0⟩ ⟨0, 1, 0⟩ ≠
        specDoubleCrossRotate ⟨2, 0, 0, 0⟩ ⟨0, 1, 0⟩ := by
  have hn : quatNormalizeUnsafe ⟨2, 0, 0, 0⟩ = ⟨1, 0, 0, 0⟩ := by
    have h4 : quatNorm ⟨2, 0, 0, 0⟩ = 2 := by
      rw [quatNorm, show quatNormSquared ⟨2, 0, 0, 0⟩ = 4 from by
        norm_num [quatNormSquared], sqrt_four_eq_two]
    simp only [quatNormalizeUnsafe, h4]
    ext <;> norm_num
  have h1 : rotateVec3ByQuatUnsafe ⟨2, 0, 0, 0⟩ ⟨0, 1, 0⟩ = ⟨0, -1, 0⟩ := by
    simp only [rotateVec3ByQuatUnsafe, hn]
    ext <;> norm_num
  have h2 : specDoubleCrossRotate ⟨2, 0, 0, 0⟩ ⟨0, 1, 0⟩ = ⟨0, -7, 0⟩ := by
    simp only [specDoubleCrossRotate]
    ext <;> norm_num
  refine ⟨h1, h2, ?_⟩
  rw [h1, h2]
  simp [Vec3.mk.injEq]

/-- C3 amended: `rotateVec3ByQuatUnsafe(q, v)` equals the double-cross
formula applied to the components of `quatNormalizeUnsafe(q)` (it skips only
the degeneracy guard, not the normalization), while the safe
`rotateVec3ByQuat` throws exactly when `quatNorm q ≤ 1e-14` and otherwise
returns the unsafe result. -/
theorem rotateVec3ByQuatUnsafe_is_normalized_doubleCross (q : Quat) (v : Vec3) :
    rotateVec3ByQuatUnsafe q v =
        specDoubleCrossRotate (quatNormalizeUnsafe q) v ∧
      (quatNorm q ≤ NEAR_ZERO →
        rotateVec3ByQuat q v =
          .error "Cannot normalize a zero-length quaternion") ∧
      (NEAR_ZERO < quatNorm q →
        rotateVec3ByQuat q v = .ok (rotateVec3ByQuatUnsafe q v)) := by
  refine ⟨rfl, ?_, ?_⟩
  · intro h
    rw [rotateVec3ByQuat, quatNormalize, if_pos h]
  · intro h
    rw [rotateVec3ByQuat, quatNormalize, if_neg (not_le.mpr h)]

/-- C3 witness: the amended claim applied at the non-unit quaternion
`(0,0,0,2)` (norm `2`) and vector `(1,2,3)`. -/
theorem rotateVec3ByQuatUnsafe_is_normalized_doubleCross_witness :
    rotateVec3ByQuatUnsafe ⟨0, 0, 0, 2⟩ ⟨1, 2, 3⟩ =
        specDoubleCrossRotate (quatNormalizeUnsafe ⟨0, 0, 0, 2⟩) ⟨1, 2, 3⟩ ∧
      rotateVec3ByQuat ⟨0, 0, 0, 2⟩ ⟨1, 2, 3⟩ =
        .ok (rotateVec3ByQuatUnsafe ⟨0, 0, 0, 2⟩ ⟨1, 2, 3⟩) := by
  have hlt : NEAR_ZERO < quatNorm ⟨0, 0, 0, 2⟩ := by
    rw [quatNorm, show quatNormSquared ⟨0, 0, 0, 2⟩ = 4 from by
      norm_num [quatNormSquared], sqrt_four_eq_two]
    norm_num [NEAR_ZERO]
  exact ⟨(rotateVec3ByQuatUnsafe_is_normalized_doubleCross _ _).1,
    (rotateVec3ByQuatUnsafe_is_normalized_doubleCross _ _).2.2 hlt⟩

/-! ## C5: composition order (corrected claim) -/

/-- C5 counterexample: for the 90° Z-rotation matrix and the non-zero
translation `(0,0,1)` ALONG the rotation axis, the two composition orders
produce the very same matrix — refuting "the two orders differ whenever `R`
is a non-trivial rotation and `T` a non-zero translation". -/
theorem composeMat4_commutes_on_axis :
    composeMat4
        (mat4FromQuaternionUnsafe "world" "body" "dimensionless"
          ⟨0, 0, Real.sqrt 2 / 2, Real.sqrt 2 / 2⟩)
        (mat4FromTranslation "world" ⟨0, 0, 1⟩) =
      composeMat4 (mat4FromTranslation "world" ⟨0, 0, 1⟩)
        (mat4FromQuaternionUnsafe "world" "body" "dimensionless"
          ⟨0, 0, Real.sqrt 2 / 2, Real.sqrt 2 / 2⟩) := by
  rw [mat4FromQuaternionUnsafe_rotZ90]
  ext <;> norm_num [composeMat4, multiplyRaw, mat4FromTranslation]

/-- C5 amended: the concrete case holds — under `composeMat4(R, T)` (inner
`T` applied first) the point `(1,0,0)` maps to `(0,3,0)` and under
`composeMat4(T, R)` to `(2,1,0)` for the 90° Z-rotation `R` and translation
`(2,0,0)` — and in general the two orders differ exactly when the rotation
moves the translation vector (`transformDirection3 t R ≠ t`), not for every
non-trivial rotation and non-zero translation. -/
theorem composeMat4_order_matters (t : Vec3) (R : Mat4)
    (hR3 : R.m3 = 0) (hR7 : R.m7 = 0) (hR11 : R.m11 = 0)
    (hR12 : R.m12 = 0) (hR13 : R.m13 = 0) (hR14 : R.m14 = 0) (hR15 : R.m15 = 1)
    (hmoves : transformDirection3 t R ≠ t) :
    transformPoint3 ⟨1, 0, 0⟩
        (composeMat4
          (mat4FromQuaternionUnsafe "world" "body" "dimensionless"
            ⟨0, 0, Real.sqrt 2 / 2, Real.sqrt 2 / 2⟩)
          (mat4FromTranslation "world" ⟨2, 0, 0⟩)) = ⟨0, 3, 0⟩ ∧
      transformPoint3 ⟨1, 0, 0⟩
        (composeMat4 (mat4FromTranslation "world" ⟨2, 0, 0⟩)
          (mat4FromQuaternionUnsafe "world" "body" "dimensionless"
            ⟨0, 0, Real.sqrt 2 / 2, Real.sqrt 2 / 2⟩)) = ⟨2, 1, 0⟩ ∧
      composeMat4 R (mat4FromTranslation "world" t) ≠
        composeMat4 (mat4FromTranslation "world" t) R := by
  refine ⟨?_, ?_, ?_⟩
  · rw [mat4FromQuaternionUnsafe_rotZ90]
    ext <;> norm_num [composeMat4, multiplyRaw, mat4FromTranslation,
      transformPoint3]
  · rw [mat4FromQuaternionUnsafe_rotZ90]
    ext <;> norm_num [composeMat4, multiplyRaw, mat4FromTranslation,
      transformPoint3]
  · intro h
    apply hmoves
    have hx := congrArg Mat4.m3 h
    have hy := congrArg Mat4.m7 h
    have hz := congrArg Mat4.m11 h
    simp only [composeMat4, multiplyRaw, mat4FromTranslation] at hx hy hz
    rw [hR3, hR7, hR11, hR15] at hx hy hz
    ext <;> simp only [transformDirection3] <;> linarith

/-- C5 witness: the general part applied at the 90° Z-rotation matrix and the
off-axis translation `(2,0,0)`. -/
theorem composeMat4_order_matters_witness :
    composeMat4 (⟨0, -1, 0, 0, 1, 0, 0, 0, 0, 0, 1, 0, 0, 0, 0, 1⟩ : Mat4)
        (mat4FromTranslation "world" ⟨2, 0, 0⟩) ≠
      composeMat4 (mat4FromTranslation "world" ⟨2, 0, 0⟩)
        ⟨0, -1, 0, 0, 1, 0, 0, 0, 0, 0, 1, 0, 0, 0, 0, 1⟩ :=
  (composeMat4_order_matters ⟨2, 0, 0⟩ _ rfl rfl rfl rfl rfl rfl rfl
    (by simp [transformDirection3, Vec3.mk.injEq])).2.2

/-! ## C2: rotation-matrix round trip (evaluation of the code) -/

/-- The safe `mat4FromQuaternion` accepts the unit 90°-Z quaternion and
produces the row-major matrix `[[0,-1,0],[1,0,0],[0,0,1]]`. -/
lemma mat4FromQuaternion_rotZ90 :
    mat4FromQuaternion "world" "body" "dimensionless"
        ⟨0, 0, Real.sqrt 2 / 2, Real.sqrt 2 / 2⟩ =
      .ok ⟨0, -1, 0, 0, 1, 0, 0, 0, 0, 0, 1, 0, 0, 0, 0, 1⟩ := by
  simp only [mat4FromQuaternion, quatNormalize_of_normSq_one _ normSq_rotZ90,
    mat4FromQuaternionUnsafe_rotZ90]

/-- Evaluation of the unsafe recovery on the 90°-Z rotation matrix: because
the source reads the basis with transposed indices, it recovers the CONJUGATE
quaternion `(0, 0, -√2/2, √2/2)`. -/
lemma quatFromRotationMatrixUnsafe_rotZ90 :
    quatFromRotationMatrixUnsafe "world" "body"
        ⟨0, -1, 0, 0, 1, 0, 0, 0, 0, 0, 1, 0, 0, 0, 0, 1⟩ =
      ⟨0, 0, -(Real.sqrt 2 / 2), Real.sqrt 2 / 2⟩ := by
  have hne : Real.sqrt 2 ≠ 0 := ne_of_gt (Real.sqrt_pos.mpr (by norm_num))
  have hraw : (⟨(0 - 0) / (Real.sqrt ((0:ℝ) + 0 + 1 + 1) * 2),
      (0 - 0) / (Real.sqrt ((0:ℝ) + 0 + 1 + 1) * 2),
      (-1 - 1) / (Real.sqrt ((0:ℝ) + 0 + 1 + 1) * 2),
      0.25 * (Real.sqrt ((0:ℝ) + 0 + 1 + 1) * 2)⟩ : Quat) =
      ⟨0, 0, -(Real.sqrt 2 / 2), Real.sqrt 2 / 2⟩ := by
    have h11 : Real.sqrt ((0:ℝ) + 0 + 1 + 1) = Real.sqrt 2 := by norm_num
    rw [h11]
    ext
    · norm_num
    · norm_num
    · rw [div_eq_iff (show (Real.sqrt 2 * 2) ≠ 0 by positivity)]
      linear_combination sqrt_two_mul_self
    · ring
  simp only [quatFromRotationMatrixUnsafe]
  rw [if_pos (by norm_num : (0:ℝ) + 0 + 1 > 0), hraw,
    quatNormalizeUnsafe_of_norm_one _
      (quatNorm_of_normSq_one _ normSq_rotZ90conj)]

/-- The safe `quatFromRotationMatrix` accepts the 90°-Z rotation matrix (a
valid rotation basis) and returns the conjugate quaternion. -/
lemma quatFromRotationMatrix_rotZ90 :
    quatFromRotationMatrix "world" "body"
        ⟨0, -1, 0, 0, 1, 0, 0, 0, 0, 0, 1, 0, 0, 0, 0, 1⟩ =
      .ok ⟨0, 0, -(Real.sqrt 2 / 2), Real.sqrt 2 / 2⟩ := by
  have hvalid : assertValidRotationBasis 0 1 0 (-1) 0 0 0 0 1 = .ok () := by
    norm_num [assertValidRotationBasis, ROTATION_MATRIX_TOLERANCE]
  simp only [quatFromRotationMatrix, hvalid, quatFromRotationMatrixUnsafe_rotZ90]

/-- Rotating `(1,0,0)` by the original 90°-Z quaternion gives `(0,1,0)`. -/
lemma rotateVec3ByQuat_rotZ90 :
    rotateVec3ByQuat ⟨0, 0, Real.sqrt 2 / 2, Real.sqrt 2 / 2⟩ ⟨1, 0, 0⟩ =
      .ok ⟨0, 1, 0⟩ := by
  have hu := quatNormalizeUnsafe_of_norm_one _
    (quatNorm_of_normSq_one _ normSq_rotZ90)
  have hr : rotateVec3ByQuatUnsafe ⟨0, 0, Real.sqrt 2 / 2, Real.sqrt 2 / 2⟩
      ⟨1, 0, 0⟩ = ⟨0, 1, 0⟩ := by
    simp only [rotateVec3ByQuatUnsafe, hu]
    ext <;>
      first
        | linear_combination (1/2 : ℝ) * sqrt_two_mul_self
        | linear_combination (-1/2 : ℝ) * sqrt_two_mul_self
        | norm_num
  rw [rotateVec3ByQuat, quatNormalize_of_normSq_one _ normSq_rotZ90, hr]

/-- Rotating `(1,0,0)` by the recovered conjugate quaternion gives
`(0,-1,0)`: the opposite rotation. -/
lemma rotateVec3ByQuat_rotZ90conj :
    rotateVec3ByQuat ⟨0, 0, -(Real.sqrt 2 / 2), Real.sqrt 2 / 2⟩ ⟨1, 0, 0⟩ =
      .ok ⟨0, -1, 0⟩ := by
  have hu := quatNormalizeUnsafe_of_norm_one _
    (quatNorm_of_normSq_one _ normSq_rotZ90conj)
  have hr : rotateVec3ByQuatUnsafe ⟨0, 0, -(Real.sqrt 2 / 2), Real.sqrt 2 / 2⟩
      ⟨1, 0, 0⟩ = ⟨0, -1, 0⟩ := by
    simp only [rotateVec3ByQuatUnsafe, hu]
    ext <;>
      first
        | linear_combination (1/2 : ℝ) * sqrt_two_mul_self
        | linear_combination (-1/2 : ℝ) * sqrt_two_mul_self
        | norm_num
  rw [rotateVec3ByQuat, quatNormalize_of_normSq_one _ normSq_rotZ90conj, hr]

/-- C2 (bug evidence): building the rotation matrix from the unit quaternion
`q = (0, 0, √2/2, √2/2)` (90° about Z) and recovering via the safe
`quatFromRotationMatrix` yields the CONJUGATE quaternion; the recovered
quaternion rotates `(1,0,0)` to `(0,-1,0)` while `q` rotates it to `(0,1,0)`
— a componentwise difference of `2`, far beyond the claimed `1e-12`. -/
theorem quatFromRotationMatrix_roundtrip_reversed :
    mat4FromQuaternion "world" "body" "dimensionless"
        ⟨0, 0, Real.sqrt 2 / 2, Real.sqrt 2 / 2⟩ =
      .ok ⟨0, -1, 0, 0, 1, 0, 0, 0, 0, 0, 1, 0, 0, 0, 0, 1⟩ ∧
    quatFromRotationMatrix "world" "body"
        ⟨0, -1, 0, 0, 1, 0, 0, 0, 0, 0, 1, 0, 0, 0, 0, 1⟩ =
      .ok ⟨0, 0, -(Real.sqrt 2 / 2), Real.sqrt 2 / 2⟩ ∧
    rotateVec3ByQuat ⟨0, 0, Real.sqrt 2 / 2, Real.sqrt 2 / 2⟩ ⟨1, 0, 0⟩ =
      .ok ⟨0, 1, 0⟩ ∧
    rotateVec3ByQuat ⟨0, 0, -(Real.sqrt 2 / 2), Real.sqrt 2 / 2⟩ ⟨1, 0, 0⟩ =
      .ok ⟨0, -1, 0⟩ ∧
    ¬(|(-1 : ℝ) - 1| ≤ 1e-12) :=
  ⟨mat4FromQuaternion_rotZ90, quatFromRotationMatrix_rotZ90,
    rotateVec3ByQuat_rotZ90, rotateVec3ByQuat_rotZ90conj, by norm_num⟩

/-! ## C4, C10: TRS cache behaviour -/

/-- After any successful cache call the stored scalars equal the call's ten
input scalars (on a hit they already did; on a rebuild they are assigned). -/
lemma trsCacheCall_stores (toF fromF : String) (s : TrsCacheState) (t : Vec3)
    (q : Quat) (sc : Vec3) (m1 : Mat4Inst) (s1 : TrsCacheState)
    (h : trsCacheCall toF fromF s t q sc = .ok (m1, s1)) :
    s1.tx = t.x ∧ s1.ty = t.y ∧ s1.tz = t.z ∧ s1.qx = q.x ∧ s1.qy = q.y ∧
      s1.qz = q.z ∧ s1.qw = q.w ∧ s1.sx = sc.x ∧ s1.sy = sc.y ∧
      s1.sz = sc.z := by
  rw [trsCacheCall] at h
  by_cases hm : trsMatches s t q sc
  · rw [if_pos hm] at h
    simp only [Except.ok.injEq, Prod.mk.injEq] at h
    obtain ⟨-, rfl⟩ := h
    obtain ⟨-, h1, h2, h3, h4, h5, h6, h7, h8, h9, h10⟩ := hm
    exact ⟨h1.symm, h2.symm, h3.symm, h4.symm, h5.symm, h6.symm, h7.symm,
      h8.symm, h9.symm, h10.symm⟩
  · rw [if_neg hm] at h
    cases hb : mat4FromTRS toF fromF t q sc with
    | error e => rw [hb] at h; exact absurd h (by simp)
    | ok mm =>
      rw [hb] at h
      simp only [Except.ok.injEq, Prod.mk.injEq] at h
      obtain ⟨-, rfl⟩ := h
      exact ⟨rfl, rfl, rfl, rfl, rfl, rfl, rfl, rfl, rfl, rfl⟩

/-- C4: the TRS cache is a single-slot memo keyed on exact equality of all
ten scalars: (a) on a full match it returns the stored instance and the state
is untouched (no rebuild); (b) on any mismatch it rebuilds via `mat4FromTRS`
and stores the freshly allocated instance (id `s.nextId`, bumping the
counter); (c) after any successful call, a further call whose inputs differ
from that call's in at least one scalar cannot hit the single slot, so two
alternating distinct input sets rebuild on every call. -/
theorem trsCache_single_slot (toF fromF : String) (s : TrsCacheState)
    (t t2 : Vec3) (q q2 : Quat) (sc sc2 : Vec3) :
    (trsMatches s t q sc →
      trsCacheCall toF fromF s t q sc = .ok (s.cached, s)) ∧
    (¬ trsMatches s t q sc → ∀ m, mat4FromTRS toF fromF t q sc = .ok m →
      trsCacheCall toF fromF s t q sc =
        .ok (⟨s.nextId, m⟩,
          ⟨true, ⟨s.nextId, m⟩, t.x, t.y, t.z, q.x, q.y, q.z, q.w,
            sc.x, sc.y, sc.z, s.nextId + 1⟩)) ∧
    (∀ m1 s1, trsCacheCall toF fromF s t q sc = .ok (m1, s1) →
      (t.x ≠ t2.x ∨ t.y ≠ t2.y ∨ t.z ≠ t2.z ∨ q.x ≠ q2.x ∨ q.y ≠ q2.y ∨
        q.z ≠ q2.z ∨ q.w ≠ q2.w ∨ sc.x ≠ sc2.x ∨ sc.y ≠ sc2.y ∨
        sc.z ≠ sc2.z) →
      ¬ trsMatches s1 t2 q2 sc2) := by
  refine ⟨?_, ?_, ?_⟩
  · intro hm
    rw [trsCacheCall, if_pos hm]
  · intro hm m htrs
    rw [trsCacheCall, if_neg hm, htrs]
  · intro m1 s1 hcall hdiff hmatch
    obtain ⟨h1, h2, h3, h4, h5, h6, h7, h8, h9, h10⟩ :=
      trsCacheCall_stores toF fromF s t q sc m1 s1 hcall
    obtain ⟨-, g1, g2, g3, g4, g5, g6, g7, g8, g9, g10⟩ := hmatch
    rcases hdiff with h | h | h | h | h | h | h | h | h | h
    · exact h (by rw [← h1, ← g1])
    · exact h (by rw [← h2, ← g2])
    · exact h (by rw [← h3, ← g3])
    · exact h (by rw [← h4, ← g4])
    · exact h (by rw [← h5, ← g5])
    · exact h (by rw [← h6, ← g6])
    · exact h (by rw [← h7, ← g7])
    · exact h (by rw [← h8, ← g8])
    · exact h (by rw [← h9, ← g9])
    · exact h (by rw [← h10, ← g10])

/-- C4 witness: on a concrete warm state, a matching call returns the very
same stored instance and state, and a call differing only in the first
translation scalar rebuilds via `mat4FromTRS` with the fresh id `2`. -/
theorem trsCache_single_slot_witness :
    trsCacheCall "world" "body"
        ⟨true, ⟨1, ⟨1, 0, 0, 0, 0, 1, 0, 0, 0, 0, 1, 0, 0, 0, 0, 1⟩⟩,
          1, 2, 3, 0, 0, 0, 1, 1, 1, 1, 2⟩
        ⟨1, 2, 3⟩ ⟨0, 0, 0, 1⟩ ⟨1, 1, 1⟩ =
      .ok (⟨1, ⟨1, 0, 0, 0, 0, 1, 0, 0, 0, 0, 1, 0, 0, 0, 0, 1⟩⟩,
        ⟨true, ⟨1, ⟨1, 0, 0, 0, 0, 1, 0, 0, 0, 0, 1, 0, 0, 0, 0, 1⟩⟩,
          1, 2, 3, 0, 0, 0, 1, 1, 1, 1, 2⟩) ∧
    trsCacheCall "world" "body"
        ⟨true, ⟨1, ⟨1, 0, 0, 0, 0, 1, 0, 0, 0, 0, 1, 0, 0, 0, 0, 1⟩⟩,
          1, 2, 3, 0, 0, 0, 1, 1, 1, 1, 2⟩
        ⟨9, 2, 3⟩ ⟨0, 0, 0, 1⟩ ⟨1, 1, 1⟩ =
      .ok (⟨2, mat4FromTRSUnsafe "world" "body" ⟨9, 2, 3⟩ ⟨0, 0, 0, 1⟩
            ⟨1, 1, 1⟩⟩,
        ⟨true,
          ⟨2, mat4FromTRSUnsafe "world" "body" ⟨9, 2, 3⟩ ⟨0, 0, 0, 1⟩
            ⟨1, 1, 1⟩⟩,
          9, 2, 3, 0, 0, 0, 1, 1, 1, 1, 3⟩) := by
  have htrs : mat4FromTRS "world" "body" ⟨9, 2, 3⟩ ⟨0, 0, 0, 1⟩ ⟨1, 1, 1⟩ =
      .ok (mat4FromTRSUnsafe "world" "body" ⟨9, 2, 3⟩ ⟨0, 0, 0, 1⟩
        ⟨1, 1, 1⟩) := by
    rw [mat4FromTRS,
      quatNormalize_of_normSq_one _ (by norm_num [quatNormSquared])]
  constructor
  · exact (trsCache_single_slot "world" "body" _ _ ⟨0, 0, 0⟩ _ ⟨0, 0, 0, 0⟩ _
      ⟨0, 0, 0⟩).1 (by simp [trsMatches])
  · exact (trsCache_single_slot "world" "body" _ _ ⟨0, 0, 0⟩ _ ⟨0, 0, 0, 0⟩ _
      ⟨0, 0, 0⟩).2.1 (by simp [trsMatches]) _ htrs

/-- C10: the cache is atomic on error: if a call throws, the closure's
captured state is unchanged (every assignment sits after the throwing
`mat4FromTRS` call), so running the erroring inputs and then inputs matching
the stored slot yields the error followed by the SAME previously built
instance, with the state still exactly `s`. -/
theorem trsCache_error_atomic (toF fromF : String) (s : TrsCacheState)
    (jt it : Vec3) (jq iq : Quat) (jsc isc : Vec3) (e : String)
    (he : trsCacheCall toF fromF s jt jq jsc = .error e)
    (hm : trsMatches s it iq isc) :
    trsCacheRun toF fromF s [(jt, jq, jsc), (it, iq, isc)] =
      (s, [.error e, .ok s.cached]) := by
  have h2 : trsCacheCall toF fromF s it iq isc = .ok (s.cached, s) := by
    rw [trsCacheCall, if_pos hm]
  simp [trsCacheRun, he, h2]

/-- C10 witness: on a concrete warm state, the call with the zero (degenerate)
rotation throws out of `mat4FromTRS`, and repeating the stored inputs next
still returns the previously built instance with the state unchanged. -/
theorem trsCache_error_atomic_witness :
    trsCacheRun "world" "body"
        ⟨true, ⟨1, ⟨1, 0, 0, 0, 0, 1, 0, 0, 0, 0, 1, 0, 0, 0, 0, 1⟩⟩,
          1, 2, 3, 0, 0, 0, 1, 1, 1, 1, 2⟩
        [(⟨1, 2, 3⟩, ⟨0, 0, 0, 0⟩, ⟨1, 1, 1⟩),
          (⟨1, 2, 3⟩, ⟨0, 0, 0, 1⟩, ⟨1, 1, 1⟩)] =
      (⟨true, ⟨1, ⟨1, 0, 0, 0, 0, 1, 0, 0, 0, 0, 1, 0, 0, 0, 0, 1⟩⟩,
          1, 2, 3, 0, 0, 0, 1, 1, 1, 1, 2⟩,
        [.error "Cannot normalize a zero-length quaternion",
          .ok ⟨1, ⟨1, 0, 0, 0, 0, 1, 0, 0, 0, 0, 1, 0, 0, 0, 0, 1⟩⟩]) := by
  have hnorm : quatNormalize ⟨0, 0, 0, 0⟩ =
      .error "Cannot normalize a zero-length quaternion" := by
    have h0 : quatNorm ⟨0, 0, 0, 0⟩ = 0 := by
      rw [quatNorm, show quatNormSquared ⟨0, 0, 0, 0⟩ = 0 from by
        norm_num [quatNormSquared], Real.sqrt_zero]
    rw [quatNormalize, h0, if_pos (by norm_num [NEAR_ZERO])]
  have he : trsCacheCall "world" "body"
      ⟨true, ⟨1, ⟨1, 0, 0, 0, 0, 1, 0, 0, 0, 0, 1, 0, 0, 0, 0, 1⟩⟩,
        1, 2, 3, 0, 0, 0, 1, 1, 1, 1, 2⟩
      ⟨1, 2, 3⟩ ⟨0, 0, 0, 0⟩ ⟨1, 1, 1⟩ =
      .error "Cannot normalize a zero-length quaternion" := by
    rw [trsCacheCall, if_neg (by simp [trsMatches]), mat4FromTRS, hnorm]
  exact trsCache_error_atomic "world" "body" _ _ _ _ _ _ _ _ he
    (by simp [trsMatches])

/-! ## C7: SLERP boundary behaviour -/

/-- C7 counterexample: for the unit quaternions `a = (0,0,0,1)` and
`b = (0,0,0,-1)` (with `dot(a,b) = -1 < 0`), `quatSlerp(a, b, 1)` returns
`(0,0,0,1) = -b`, whose raw `w` component differs from `b`'s by `2` — far
beyond any tolerance. -/
theorem quatSlerp_one_flips_sign :
    quatSlerp ⟨0, 0, 0, 1⟩ ⟨0, 0, 0, -1⟩ 1 = .ok ⟨0, 0, 0, 1⟩ ∧
      ¬(|(1 : ℝ) - (-1)| ≤ 1e-12) := by
  constructor
  · norm_num [quatSlerp, quatNlerp, quatNormalize, quatNormalizeUnsafe,
      quatNorm, quatNormSquared, NEAR_ZERO, Real.sqrt_one]
  · norm_num

/-- Negating all four components preserves a unit squared norm. -/
lemma normSq_neg (b : Quat) (hb : quatNormSquared b = 1) :
    quatNormSquared ⟨-b.x, -b.y, -b.z, -b.w⟩ = 1 := by
  simp only [quatNormSquared] at hb ⊢
  linear_combination hb

/-- `quatNlerp` at `t = 0` returns the (unit) start quaternion exactly,
whatever the end quaternion is. -/
lemma quatNlerp_zero (a e : Quat) (ha : quatNormSquared a = 1) :
    quatNlerp a e 0 = .ok a := by
  simp only [quatNlerp]
  split_ifs with h <;>
    · convert quatNormalize_of_normSq_one a ha using 2
      ext <;> ring

/-- `quatNlerp` at `t = 1` returns the (unit) end quaternion exactly when the
dot product is non-negative (no hemisphere flip). -/
lemma quatNlerp_one (a e : Quat) (he : quatNormSquared e = 1)
    (hd : 0 ≤ a.x * e.x + a.y * e.y + a.z * e.z + a.w * e.w) :
    quatNlerp a e 1 = .ok e := by
  simp only [quatNlerp]
  rw [if_neg (not_lt.mpr hd)]
  convert quatNormalize_of_normSq_one e he using 2
  ext <;> ring

/-- The clamped `arccos` of a cosine in `[0, 0.9995]` has positive sine. -/
lemma sin_arccos_clamp_pos (c : ℝ) (hc0 : 0 ≤ c) (hc1 : c ≤ 0.9995) :
    0 < Real.sin (Real.arccos (max (-1) (min 1 c))) := by
  have hmin : min 1 c = c := min_eq_right (le_trans hc1 (by norm_num))
  have hmax : max (-1 : ℝ) c = c := max_eq_right (le_trans (by norm_num) hc0)
  rw [hmin, hmax]
  apply Real.sin_pos_of_pos_of_lt_pi
  · exact Real.arccos_pos.mpr (lt_of_le_of_lt hc1 (by norm_num))
  · refine lt_of_le_of_ne (Real.arccos_le_pi c) fun hEq => ?_
    have := Real.arccos_eq_pi.mp hEq
    linarith

/-- Normalizing the blend `s0 * a + s1 * e` with `s0 = 1`, `s1 = 0` returns
the unit quaternion `a`. -/
lemma quatNormalize_blend_left (a e : Quat) (s0 s1 : ℝ) (h0 : s0 = 1)
    (h1 : s1 = 0) (ha : quatNormSquared a = 1) :
    quatNormalize ⟨s0 * a.x + s1 * e.x, s0 * a.y + s1 * e.y,
      s0 * a.z + s1 * e.z, s0 * a.w + s1 * e.w⟩ = .ok a := by
  subst h0 h1
  convert quatNormalize_of_normSq_one a ha using 2
  ext <;> ring

/-- Normalizing the blend `s0 * a + s1 * e` with `s0 = 0`, `s1 = 1` returns
the unit quaternion `e`. -/
lemma quatNormalize_blend_right (a e : Quat) (s0 s1 : ℝ) (h0 : s0 = 0)
    (h1 : s1 = 1) (he : quatNormSquared e = 1) :
    quatNormalize ⟨s0 * a.x + s1 * e.x, s0 * a.y + s1 * e.y,
      s0 * a.z + s1 * e.z, s0 * a.w + s1 * e.w⟩ = .ok e := by
  subst h0 h1
  convert quatNormalize_of_normSq_one e he using 2
  ext <;> ring

/-- C7 amended: for UNIT quaternions `a`, `b`: `quatSlerp(a, b, 0)` returns
`a` exactly, and `quatSlerp(a, b, 1)` returns `b` exactly when
`dot(a, b) ≥ 0` but `-b` (the hemisphere flip) when `dot(a, b) < 0`; raw
components therefore match only up to that sign, and non-unit inputs are
renormalized rather than returned. -/
theorem quatSlerp_boundary (a b : Quat) (ha : quatNormSquared a = 1)
    (hb : quatNormSquared b = 1) :
    quatSlerp a b 0 = .ok a ∧
      (0 ≤ a.x * b.x + a.y * b.y + a.z * b.z + a.w * b.w →
        quatSlerp a b 1 = .ok b) ∧
      (a.x * b.x + a.y * b.y + a.z * b.z + a.w * b.w < 0 →
        quatSlerp a b 1 = .ok ⟨-b.x, -b.y, -b.z, -b.w⟩) := by
  have hnegb := normSq_neg b hb
  refine ⟨?_, ?_, ?_⟩
  · by_cases hd : a.x * b.x + a.y * b.y + a.z * b.z + a.w * b.w < 0
    · simp only [quatSlerp, if_pos hd]
      by_cases hc : -(a.x * b.x + a.y * b.y + a.z * b.z + a.w * b.w) > 0.9995
      · rw [if_pos hc]
        exact quatNlerp_zero a _ ha
      · rw [if_neg hc]
        apply quatNormalize_blend_left a ⟨-b.x, -b.y, -b.z, -b.w⟩
        · rw [mul_zero, sub_zero]
          exact div_self
            (ne_of_gt (sin_arccos_clamp_pos _ (by linarith) (by linarith [not_lt.mp hc])))
        · rw [mul_zero, Real.sin_zero, zero_div]
        · exact ha
    · simp only [quatSlerp, if_neg hd]
      by_cases hc : a.x * b.x + a.y * b.y + a.z * b.z + a.w * b.w > 0.9995
      · rw [if_pos hc]
        exact quatNlerp_zero a b ha
      · rw [if_neg hc]
        apply quatNormalize_blend_left a b
        · rw [mul_zero, sub_zero]
          exact div_self
            (ne_of_gt (sin_arccos_clamp_pos _ (by linarith [not_lt.mp hd]) (by linarith [not_lt.mp hc])))
        · rw [mul_zero, Real.sin_zero, zero_div]
        · exact ha
  · intro hd0
    simp only [quatSlerp, if_neg (not_lt.mpr hd0)]
    by_cases hc : a.x * b.x + a.y * b.y + a.z * b.z + a.w * b.w > 0.9995
    · rw [if_pos hc]
      exact quatNlerp_one a b hb hd0
    · rw [if_neg hc]
      apply quatNormalize_blend_right a b
      · rw [mul_one, sub_self, Real.sin_zero, zero_div]
      · rw [mul_one]
        exact div_self
          (ne_of_gt (sin_arccos_clamp_pos _ hd0 (not_lt.mp hc)))
      · exact hb
  · intro hdneg
    simp only [quatSlerp, if_pos hdneg]
    by_cases hc : -(a.x * b.x + a.y * b.y + a.z * b.z + a.w * b.w) > 0.9995
    · rw [if_pos hc]
      apply quatNlerp_one a ⟨-b.x, -b.y, -b.z, -b.w⟩ hnegb
      show 0 ≤ a.x * -b.x + a.y * -b.y + a.z * -b.z + a.w * -b.w
      nlinarith [hdneg]
    · rw [if_neg hc]
      apply quatNormalize_blend_right a ⟨-b.x, -b.y, -b.z, -b.w⟩
      · rw [mul_one, sub_self, Real.sin_zero, zero_div]
      · rw [mul_one]
        exact div_self
          (ne_of_gt (sin_arccos_clamp_pos _ (by linarith) (by linarith [not_lt.mp hc])))
      · exact hnegb

/-- C7 witness: the amended claim applied at `a = b = (0,0,0,1)`:
`quatSlerp(a, b, 0) = a` and (`dot = 1 ≥ 0`) `quatSlerp(a, b, 1) = b`. -/
theorem quatSlerp_boundary_witness :
    quatSlerp ⟨0, 0, 0, 1⟩ ⟨0, 0, 0, 1⟩ 0 = .ok ⟨0, 0, 0, 1⟩ ∧
      quatSlerp ⟨0, 0, 0, 1⟩ ⟨0, 0, 0, 1⟩ 1 = .ok ⟨0, 0, 0, 1⟩ :=
  ⟨(quatSlerp_boundary ⟨0, 0, 0, 1⟩ ⟨0, 0, 0, 1⟩
      (by norm_num [quatNormSquared]) (by norm_num [quatNormSquared])).1,
    (quatSlerp_boundary ⟨0, 0, 0, 1⟩ ⟨0, 0, 0, 1⟩
      (by norm_num [quatNormSquared]) (by norm_num [quatNormSquared])).2.1
      (by norm_num)⟩

end

end SafeMathTS
